import Mathlib

/-!
Verification of the RockPaperScissors transaction-inspection engine
(`venn-custom-detection/src/modules/detection-module/service.ts`).

Embedding conventions:
* JavaScript strings are Lean `String`; `toLowerCase`, `startsWith` and
  `slice(0, 10)` are modelled character-wise on `String.data` (`lowerStr`,
  `startsWithStr`, `selector`), which agrees with the JavaScript operations
  on the ASCII data the service handles.
* JavaScript numbers obtained from `parseInt` on decimal numerals are
  modelled as `Int`; numbers obtained from `parseFloat` (price impacts,
  amounts, volatilities, durations, oracle values) are modelled as exact
  fractions `JSNum` (numerator / positive denominator), with comparison by
  cross-multiplication.  All values appearing in the repository are exactly
  representable, and no comparison in the service is close enough to a
  rounding boundary for double rounding to differ from exact arithmetic.
  Division by zero yields `0` here (JavaScript would yield an infinity or
  NaN); no claim depends on a zero divisor.
* Optional JavaScript fields / `undefined` are `Option`; the loosely typed
  `additionalData` bag is modelled as a record of independently optional
  views, exactly the views the service casts out of it.
* Trace fields never read by the service (gas, value, pre/post state, logs,
  output) are omitted from the model.
* The TypeScript fields `from` and `to` are rendered `fromAddr` and
  `toAddr` (`from` and `to` are Lean keywords).
-/

/-- Exact fraction model of a JavaScript number: `num / den` with `den`
a positive natural number by construction of every literal and every
operation below.  Operations mirror exact rational arithmetic without
normalisation so that all computations kernel-reduce. -/
structure JSNum where
  num : Int
  den : Nat
deriving DecidableEq, Repr, Inhabited

namespace JSNum

/-- Addition of exact fractions. -/
def add (a b : JSNum) : JSNum := ⟨a.num * b.den + b.num * a.den, a.den * b.den⟩

/-- Subtraction of exact fractions. -/
def sub (a b : JSNum) : JSNum := ⟨a.num * b.den - b.num * a.den, a.den * b.den⟩

/-- Multiplication of exact fractions. -/
def mul (a b : JSNum) : JSNum := ⟨a.num * b.num, a.den * b.den⟩

/-- Division of exact fractions; a zero divisor yields `0` (see the header
note).  The sign of the divisor is moved into the numerator so that the
denominator stays positive. -/
def div (a b : JSNum) : JSNum :=
  if b.num = 0 then ⟨0, 1⟩
  else if 0 ≤ b.num then ⟨a.num * b.den, a.den * b.num.natAbs⟩
  else ⟨-(a.num * b.den), a.den * b.num.natAbs⟩

/-- Absolute value of an exact fraction, as in `Math.abs`. -/
def abs (a : JSNum) : JSNum := ⟨|a.num|, a.den⟩

/-- Strict order on exact fractions by cross-multiplication (sound because
denominators are positive). -/
def blt (a b : JSNum) : Bool := a.num * (b.den : Int) < b.num * (a.den : Int)

/-- Truthiness of a JavaScript number: `0` is falsy. -/
def isZero (a : JSNum) : Bool := a.num = 0

/-- Embedding of a natural number literal. -/
def ofNat (n : Nat) : JSNum := ⟨n, 1⟩

end JSNum

/-- Character-wise ASCII lowercasing, the model of `String.toLowerCase`. -/
def lowerStr (s : String) : String := ⟨s.data.map Char.toLower⟩

/-- Model of `String.startsWith`: `startsWithStr pre s` holds when `s`
begins with `pre`. -/
def startsWithStr (pre s : String) : Bool := pre.data.isPrefixOf s.data

/-- Model of `input.slice(0, 10)`: the 4-byte function selector with its
`0x` prefix. -/
def selector (input : String) : String := ⟨input.data.take 10⟩

/-- Mempool transaction as read by the service (`Transaction` interface);
`gasPrice` is the `parseInt` value of the decimal string field. -/
structure Transaction where
  hash : String
  fromAddr : String
  toAddr : String
  gasPrice : Int
  input : String
deriving DecidableEq, Repr

/-- Price impact figures of the mempool view; the `parseFloat` values of
the `before` / `after` string fields. -/
structure PriceImpact where
  before : JSNum
  after : JSNum
deriving DecidableEq, Repr

/-- Similarity-analysis summary of the mempool view. -/
structure SimilarityAnalysis where
  isExactCopy : Bool
  inputSimilarity : String
deriving DecidableEq, Repr

/-- The `MempoolContext` view. -/
structure MempoolContext where
  blockTransactions : Option (List Transaction) := none
  pendingTransactions : Option (List Transaction) := none
  currentTransaction : Option Transaction := none
  priceImpact : Option PriceImpact := none
  similarityAnalysis : Option SimilarityAnalysis := none
deriving DecidableEq, Repr

/-- The `BlockchainContext` (reorg) view. -/
structure BlockchainContext where
  isReorg : Option Bool := none
  reorgDepth : Option Nat := none
  blockNumber : Option Nat := none
  timestamp : Option Nat := none
deriving DecidableEq, Repr

/-- One liquidity event; `amount` is the `parseFloat` value of the decimal
string field. -/
structure LiquidityEvent where
  type : String
  address : String
  amount : JSNum
deriving DecidableEq, Repr

/-- The `LiquidityContext` view. -/
structure LiquidityContext where
  recentLiquidityEvents : Option (List LiquidityEvent) := none
  liquidityDuration : Option JSNum := none
deriving DecidableEq, Repr

/-- One oracle update; values are the `parseFloat` values of the decimal
string fields. -/
structure OracleUpdate where
  oldValue : JSNum
  newValue : JSNum
  updater : String
deriving DecidableEq, Repr

/-- Volatility summary of the oracle view. -/
structure VolatilityAnalysis where
  normalVolatility : JSNum
  attackVolatility : JSNum
  confidenceScore : JSNum
deriving DecidableEq, Repr

/-- The `OracleContext` view. -/
structure OracleContext where
  recentOracleUpdates : Option (List OracleUpdate) := none
  volatilityAnalysis : Option VolatilityAnalysis := none
deriving DecidableEq, Repr

/-- The `MultisigInfo` view: signer counts for a privileged operation. -/
structure MultisigInfo where
  presentPlayers : Nat
  requiredPlayers : Nat
deriving DecidableEq, Repr

/-- Game-type discriminant of the game-state view (spec section 3:
single-round / best-of-three / best-of-five). -/
inductive GameType where
  | oneRound
  | bestOfThree
  | bestOfFive
deriving DecidableEq, Repr

/-- Modelled from the spec: the `GameStateView` context view (authoritative
player set, round/score counters, game-type discriminant) consumed by the
second detection-service variant, whose source is not part of the captured
tree; the shape follows spec section 3 and the game-state payloads of the
repository test suite. -/
structure GameStateView where
  players : List String
  roundsPlayed : Nat := 0
  scores : List Nat := []
  gameType : GameType := GameType.oneRound
deriving DecidableEq, Repr

/-- The `additionalData` bag: a record of independently optional context
views, exactly the views the service reads out of the loosely typed
JavaScript object. -/
structure AdditionalData where
  mempoolContext : Option MempoolContext := none
  blockchainContext : Option BlockchainContext := none
  liquidityContext : Option LiquidityContext := none
  oracleContext : Option OracleContext := none
  multisigInfo : Option MultisigInfo := none
  gameState : Option GameStateView := none
deriving DecidableEq, Repr

/-- One nested sub-call of the trace (fields read by the service). -/
structure Call where
  fromAddr : String
  toAddr : String
  input : String
deriving DecidableEq, Repr

/-- The transaction trace (fields read by the service); `calls` is optional
because the service guards it with `request.trace.calls || []`. -/
structure TransactionTrace where
  fromAddr : String
  toAddr : String
  input : String
  calls : Option (List Call) := none
deriving DecidableEq, Repr

/-- The detection request consumed by `detect`. -/
structure DetectionRequest where
  hash : String
  protocolName : String := ""
  protocolAddress : Option String := none
  chainId : Nat := 0
  trace : TransactionTrace
  additionalData : Option AdditionalData := none
deriving DecidableEq, Repr

/-- The detection response produced by `createResponse`: the verdict plus
identity fields echoed from the request. -/
structure DetectionResponse where
  detected : Bool
  message : Option String
  protocolName : String
  protocolAddress : Option String
  chainId : Nat
deriving DecidableEq, Repr

/-- Official game-function selector `createGame(GameType)`. -/
def CREATE_GAME : String := "0x25aa99cd"

/-- Official game-function selector `joinGame(uint256)`. -/
def JOIN_GAME : String := "0xee9a31a2"

/-- Official game-function selector `makeMove(uint256,Choice)`. -/
def MAKE_MOVE : String := "0x57a33a7c"

/-- Privileged selector of the private `_endGame(uint256)` function. -/
def END_GAME : String := "0x3e4372d0"

/-- Known high-risk MEV addresses; the source lowercases its two mixed-case
literals at definition time, so the stored values are these lowercase
strings. -/
def KNOWN_MEV_ADDRESSES : List String :=
  ["0x4206904396d558d6fa240e0f788d30c831d4a6e7",
   "0xc8f68eccf2f05f32d29a8e949fda3a222f6a9bd7"]

/-- Placeholder transaction for guarded list indexing (every use below is
under a bound that makes the index valid, as in the source). -/
def defaultTransaction : Transaction := ⟨"", "", "", 0, ""⟩

/-- Placeholder liquidity event for guarded list indexing. -/
def defaultLiquidityEvent : LiquidityEvent := ⟨"", "", ⟨0, 1⟩⟩

/-- Placeholder oracle update for guarded list indexing. -/
def defaultOracleUpdate : OracleUpdate := ⟨⟨0, 1⟩, ⟨0, 1⟩, ""⟩

/-- The sandwich-attack detector (`isSandwichAttackPattern`). -/
def isSandwichAttackPattern (request : DetectionRequest) : Bool :=
  match request.additionalData.bind (fun d => d.mempoolContext) with
  | none => false
  | some mempoolContext =>
    match mempoolContext.blockTransactions with
    | none => false
    | some transactions =>
      if transactions.length < 3 then false
      else
        let firstTx := transactions.getD 0 defaultTransaction
        let lastTx := transactions.getD (transactions.length - 1) defaultTransaction
        let targetPosition := transactions.findIdx (fun tx => tx.hash == request.hash)
        if targetPosition = 0 ∨ transactions.length - 1 ≤ targetPosition then false
        else if lowerStr firstTx.fromAddr == lowerStr lastTx.fromAddr
            && KNOWN_MEV_ADDRESSES.contains (lowerStr firstTx.fromAddr)
            && ((transactions.getD targetPosition defaultTransaction).gasPrice < firstTx.gasPrice : Bool)
            && ((transactions.getD targetPosition defaultTransaction).gasPrice < lastTx.gasPrice : Bool) then
          match mempoolContext.priceImpact with
          | some priceImpact => JSNum.blt (JSNum.ofNat 1) (priceImpact.before.add priceImpact.after)
          | none => true
        else false

/-- The time-bandit (reorg) detector (`isTimeBanditAttack`).  The source
guard is `isReorg && reorgDepth && reorgDepth > 2`: the middle conjunct is
JavaScript truthiness of the depth, rendered here as presence plus
non-zeroness. -/
def isTimeBanditAttack (request : DetectionRequest) : Bool :=
  match request.additionalData.bind (fun d => d.blockchainContext) with
  | none => false
  | some blockchainContext =>
    blockchainContext.isReorg.getD false
      && (match blockchainContext.reorgDepth with
          | some depth => !(depth == 0) && (2 < depth : Bool)
          | none => false)

/-- The JIT-liquidity detector (`isJITLiquidityAttack`).  The source guard
is `liquidityDuration && liquidityDuration < 30`: JavaScript truthiness of
the duration, rendered here as presence plus non-zeroness. -/
def isJITLiquidityAttack (request : DetectionRequest) : Bool :=
  match request.additionalData.bind (fun d => d.liquidityContext) with
  | none => false
  | some liquidityContext =>
    match liquidityContext.recentLiquidityEvents with
    | none => false
    | some events =>
      let addEvents := events.filter (fun e => e.type == "add")
      let removeEvents := events.filter (fun e => e.type == "remove")
      let playerEvents := events.filter (fun e => e.type == "playerTransaction")
      if addEvents.length = 0 ∨ removeEvents.length = 0 ∨ playerEvents.length = 0 then false
      else
        match liquidityContext.liquidityDuration with
        | none => false
        | some duration =>
          if !duration.isZero && JSNum.blt duration (JSNum.ofNat 30) then
            let provider := lowerStr (addEvents.getD 0 defaultLiquidityEvent).address
            if KNOWN_MEV_ADDRESSES.contains provider then true
            else JSNum.blt (addEvents.getD 0 defaultLiquidityEvent).amount
                   (removeEvents.getD 0 defaultLiquidityEvent).amount
          else false

/-- The multisig-validation-bypass detector (`isMultisigValidationBypass`). -/
def isMultisigValidationBypass (functionSignature : String)
    (request : DetectionRequest) : Bool :=
  if functionSignature ≠ MAKE_MOVE then false
  else
    let calls := request.trace.calls.getD []
    if calls.length < 2 then false
    else
      let suspiciousCalls := calls.filter (fun call => startsWithStr END_GAME call.input)
      if 0 < suspiciousCalls.length then
        match request.additionalData.bind (fun d => d.multisigInfo) with
        | some multisigInfo =>
          (multisigInfo.presentPlayers < multisigInfo.requiredPlayers : Bool)
        | none => true
      else false

/-- Percentage change of one oracle update:
`Math.abs((newValue - oldValue) / oldValue) * 100`. -/
def percentChange (u : OracleUpdate) : JSNum :=
  ((u.newValue.sub u.oldValue).div u.oldValue).abs.mul (JSNum.ofNat 100)

/-- The oracle-manipulation detector (`isOracleManipulation`).  The source
iterates `i` from `0` to `updates.length - 2` and returns on the first
index whose check passes; a pure `any` over that index range is
equivalent. -/
def isOracleManipulation (request : DetectionRequest) : Bool :=
  match request.additionalData.bind (fun d => d.oracleContext) with
  | none => false
  | some oracleContext =>
    match oracleContext.recentOracleUpdates with
    | none => false
    | some updates =>
      if updates.length < 2 then false
      else
        (List.range (updates.length - 1)).any (fun i =>
          match oracleContext.volatilityAnalysis with
          | some va =>
            JSNum.blt (va.normalVolatility.mul (JSNum.ofNat 3)) va.attackVolatility
              && JSNum.blt ⟨8, 10⟩ va.confidenceScore
          | none =>
            JSNum.blt (JSNum.ofNat 10) (percentChange (updates.getD i defaultOracleUpdate))
              && KNOWN_MEV_ADDRESSES.contains
                   (lowerStr (updates.getD i defaultOracleUpdate).updater))

/-- The generalized-frontrunning detector (`isGeneralizedFrontrunning`).
The source loop returns, at the first pending transaction with identical
input, higher current gas price and a different sender, the MEV-membership
of the current sender (possibly `false`, which then skips the similarity
branch); this is `find?` followed by the membership test. -/
def isGeneralizedFrontrunning (request : DetectionRequest) : Bool :=
  match request.additionalData.bind (fun d => d.mempoolContext) with
  | none => false
  | some mempoolContext =>
    let pendingTxs := mempoolContext.pendingTransactions.getD []
    match mempoolContext.currentTransaction with
    | none => false
    | some currentTx =>
      if pendingTxs.length = 0 then false
      else
        match pendingTxs.find? (fun pendingTx =>
            pendingTx.input == currentTx.input
              && (pendingTx.gasPrice < currentTx.gasPrice : Bool)
              && !(lowerStr currentTx.fromAddr == lowerStr pendingTx.fromAddr)) with
        | some _ => KNOWN_MEV_ADDRESSES.contains (lowerStr currentTx.fromAddr)
        | none =>
          match mempoolContext.similarityAnalysis with
          | some analysis =>
            analysis.isExactCopy && analysis.inputSimilarity == "100%"
              && KNOWN_MEV_ADDRESSES.contains (lowerStr currentTx.fromAddr)
          | none => false

/-- Literal verdict message of the sandwich-attack detector. -/
def sandwichAttackMessage : String :=
  "Sandwich attack pattern detected: Transaction is part of a sandwich attack that may extract value from players"

/-- Literal verdict message of the time-bandit detector. -/
def timeBanditMessage : String :=
  "Time-bandit attack detected: Potential chain reorganization targeting high-value games"

/-- Literal verdict message of the JIT-liquidity detector. -/
def jitLiquidityMessage : String :=
  "JIT liquidity attack detected: Temporary liquidity provision to extract fees from players"

/-- Literal verdict message of the multisig-bypass detector. -/
def multisigBypassMessage : String :=
  "Multisig validation bypass attempt detected: Transaction attempts to circumvent two-player validation"

/-- Literal verdict message of the oracle-manipulation detector. -/
def oracleManipulationMessage : String :=
  "Oracle manipulation attack detected: Price feed manipulation could affect game outcomes"

/-- Literal verdict message of the generalized-frontrunning detector. -/
def frontrunningMessage : String :=
  "Generalized frontrunning attack detected: Transaction copies player moves with higher gas price"

/-- The fixed per-detector message vocabulary, in pipeline order. -/
def attackMessages : List String :=
  [sandwichAttackMessage, timeBanditMessage, jitLiquidityMessage,
   multisigBypassMessage, oracleManipulationMessage, frontrunningMessage]

/-- The response builder (`createResponse`): verdict plus echoed request
identity fields. -/
def createResponse (request : DetectionRequest) (detected : Bool)
    (message : Option String := none) : DetectionResponse :=
  { detected := detected
    message := message
    protocolName := request.protocolName
    protocolAddress := request.protocolAddress
    chainId := request.chainId }

/-- The detection pipeline (`DetectionService.detect`): scope filter, then
the six detectors in source order, first match wins.  The scope guard is
`to.toLowerCase() !== request.protocolAddress?.toLowerCase()`, which also
fires when no protocol address is supplied. -/
def detect (request : DetectionRequest) : DetectionResponse :=
  if request.protocolAddress.map lowerStr ≠ some (lowerStr request.trace.toAddr) then
    createResponse request false
  else
    if isSandwichAttackPattern request then
      createResponse request true (some sandwichAttackMessage)
    else if isTimeBanditAttack request then
      createResponse request true (some timeBanditMessage)
    else if isJITLiquidityAttack request then
      createResponse request true (some jitLiquidityMessage)
    else if isMultisigValidationBypass (selector request.trace.input) request then
      createResponse request true (some multisigBypassMessage)
    else if isOracleManipulation request then
      createResponse request true (some oracleManipulationMessage)
    else if isGeneralizedFrontrunning request then
      createResponse request true (some frontrunningMessage)
    else
      createResponse request false

/-- Modelled from the spec: the win condition for the stated game type
(spec section 4.2 rule 1: single-round requires at least one round played;
best-of-three / best-of-five require a player score reaching the win
threshold of two / three). -/
def winConditionReached (gs : GameStateView) : Bool :=
  match gs.gameType with
  | GameType.oneRound => (1 ≤ gs.roundsPlayed : Bool)
  | GameType.bestOfThree => gs.scores.any (fun s => (2 ≤ s : Bool))
  | GameType.bestOfFive => gs.scores.any (fun s => (3 ≤ s : Bool))

/-- Modelled from the spec: the premature-resolution detector of the second
detection-service variant (spec section 4.2 rule 1), whose source is not in
the captured tree; it fires when the invoked selector is the privileged
end-game selector, a game-state view is present, and the win condition has
not been reached; absent the view it abstains. -/
def isPrematureResolution (request : DetectionRequest) : Bool :=
  selector request.trace.input == END_GAME
    && (match request.additionalData.bind (fun d => d.gameState) with
        | some gs => !winConditionReached gs
        | none => false)

/-- Modelled from the spec: the direct privileged-function-call detector of
the second variant (spec section 4.2 rule 2): the privileged end-game
selector must never be invoked directly, independent of game state. -/
def isDirectPrivilegedCall (request : DetectionRequest) : Bool :=
  selector request.trace.input == END_GAME

/-- Modelled from the spec: the unauthorized-actor detector of the second
variant (spec section 4.2 rule 3): a per-game action whose sender is absent
from the authoritative player set of the game-state view; absent the view
it abstains.  Addresses are compared case-insensitively (spec section 3). -/
def isUnauthorizedActor (request : DetectionRequest) : Bool :=
  selector request.trace.input == MAKE_MOVE
    && (match request.additionalData.bind (fun d => d.gameState) with
        | some gs =>
          !((gs.players.map lowerStr).contains (lowerStr request.trace.fromAddr))
        | none => false)

/-- Modelled from the spec: the turn-order / rapid-sequential-calls detector
of the second variant (spec section 4.2 rule 4): two or more nested
sub-calls whose sender equals the top-level sender. -/
def isRapidSequentialMoves (request : DetectionRequest) : Bool :=
  (2 ≤ ((request.trace.calls.getD []).filter
        (fun c => lowerStr c.fromAddr == lowerStr request.trace.fromAddr)).length : Bool)

/-- Modelled from the spec: verdict message of the premature-resolution
detector, taken from the expectation of the repository test suite. -/
def prematureEndMessage : String := "Attempt to end game prematurely detected"

/-- Modelled from the spec: verdict message of the direct
privileged-function-call detector (no repository test pins its wording). -/
def directPrivilegedMessage : String := "Direct call to privileged game function detected"

/-- Modelled from the spec: verdict message of the unauthorized-actor
detector, taken from the expectation of the repository test suite. -/
def unauthorizedPlayerMessage : String := "Unauthorized player attempting to make move"

/-- Modelled from the spec: verdict message of the rapid-sequential-moves
detector, taken from the expectation of the repository test suite. -/
def rapidMovesMessage : String := "Suspicious rapid sequential moves detected"

/-- Modelled from the spec: the classification pipeline of the second
detection-service variant (spec section 4.3): scope filter, then the
catalogue in the fixed order of spec section 4.2, first match wins.
Detectors 5 to 16 of the catalogue are not modelled (they are rendered as
abstaining): every claim settled against this model concerns a request on
which one of the first four detectors fires, so the unmodelled detectors
cannot influence the verdicts proved below. -/
def detectGame (request : DetectionRequest) : DetectionResponse :=
  if request.protocolAddress.map lowerStr ≠ some (lowerStr request.trace.toAddr) then
    createResponse request false
  else if isPrematureResolution request then
    createResponse request true (some prematureEndMessage)
  else if isDirectPrivilegedCall request then
    createResponse request true (some directPrivilegedMessage)
  else if isUnauthorizedActor request then
    createResponse request true (some unauthorizedPlayerMessage)
  else if isRapidSequentialMoves request then
    createResponse request true (some rapidMovesMessage)
  else
    createResponse request false

/-- The sandwich-attack condition exactly as claim C5 states it, with the
located-by-hash position read as the first index at which the hash occurs. -/
def sandwichClaim (request : DetectionRequest) : Prop :=
  ∃ mempoolContext transactions,
    request.additionalData.bind (fun d => d.mempoolContext) = some mempoolContext
    ∧ mempoolContext.blockTransactions = some transactions
    ∧ 3 ≤ transactions.length
    ∧ 0 < transactions.findIdx (fun tx => tx.hash == request.hash)
    ∧ transactions.findIdx (fun tx => tx.hash == request.hash) < transactions.length - 1
    ∧ lowerStr (transactions.getD 0 defaultTransaction).fromAddr
        = lowerStr (transactions.getD (transactions.length - 1) defaultTransaction).fromAddr
    ∧ lowerStr (transactions.getD 0 defaultTransaction).fromAddr ∈ KNOWN_MEV_ADDRESSES
    ∧ (transactions.getD (transactions.findIdx (fun tx => tx.hash == request.hash))
        defaultTransaction).gasPrice < (transactions.getD 0 defaultTransaction).gasPrice
    ∧ (transactions.getD (transactions.findIdx (fun tx => tx.hash == request.hash))
        defaultTransaction).gasPrice
        < (transactions.getD (transactions.length - 1) defaultTransaction).gasPrice
    ∧ ∀ priceImpact, mempoolContext.priceImpact = some priceImpact →
        JSNum.blt (JSNum.ofNat 1) (priceImpact.before.add priceImpact.after) = true

/-- The multisig-bypass condition exactly as claim C4 states it: make-move
selector, a nested sub-call invoking the privileged end-game selector, and
insufficient or absent multisig context.  The claim does not require a
minimum number of nested sub-calls. -/
def multisigBypassClaim (request : DetectionRequest) : Prop :=
  selector request.trace.input = MAKE_MOVE
  ∧ (∃ call ∈ request.trace.calls.getD [], startsWithStr END_GAME call.input = true)
  ∧ ((∃ multisigInfo,
        request.additionalData.bind (fun d => d.multisigInfo) = some multisigInfo
        ∧ multisigInfo.presentPlayers < multisigInfo.requiredPlayers)
     ∨ request.additionalData.bind (fun d => d.multisigInfo) = none)

/-- The JIT-liquidity condition exactly as claim C7 states it: at least one
event of each kind, a defined total duration below the thirty-second
threshold (a duration of zero included), and a high-risk first provider or
a first removal exceeding the first addition. -/
def jitClaim (request : DetectionRequest) : Prop :=
  ∃ liquidityContext events,
    request.additionalData.bind (fun d => d.liquidityContext) = some liquidityContext
    ∧ liquidityContext.recentLiquidityEvents = some events
    ∧ events.filter (fun e => e.type == "add") ≠ []
    ∧ events.filter (fun e => e.type == "remove") ≠ []
    ∧ events.filter (fun e => e.type == "playerTransaction") ≠ []
    ∧ (∃ duration, liquidityContext.liquidityDuration = some duration
        ∧ JSNum.blt duration (JSNum.ofNat 30) = true)
    ∧ (lowerStr ((events.filter (fun e => e.type == "add")).getD 0
          defaultLiquidityEvent).address ∈ KNOWN_MEV_ADDRESSES
       ∨ JSNum.blt
           ((events.filter (fun e => e.type == "add")).getD 0 defaultLiquidityEvent).amount
           ((events.filter (fun e => e.type == "remove")).getD 0 defaultLiquidityEvent).amount
           = true)

/-- The oracle-manipulation condition exactly as claim C8 states it: with
at least two updates, either the volatility test passes, or (no volatility
summary) some update of the whole list — the last one included — shows a
raw change above ten percent by a high-risk updater. -/
def oracleClaim (request : DetectionRequest) : Prop :=
  ∃ oracleContext updates,
    request.additionalData.bind (fun d => d.oracleContext) = some oracleContext
    ∧ oracleContext.recentOracleUpdates = some updates
    ∧ 2 ≤ updates.length
    ∧ ((∃ va, oracleContext.volatilityAnalysis = some va
          ∧ JSNum.blt (va.normalVolatility.mul (JSNum.ofNat 3)) va.attackVolatility = true
          ∧ JSNum.blt ⟨8, 10⟩ va.confidenceScore = true)
       ∨ (oracleContext.volatilityAnalysis = none
          ∧ ∃ u ∈ updates, JSNum.blt (JSNum.ofNat 10) (percentChange u) = true
              ∧ lowerStr u.updater ∈ KNOWN_MEV_ADDRESSES))

/-- Protocol (contract) address used by the concrete requests below. -/
def protoAddr : String := "0x7296c77edd04092fd6a8117c7f797e0680d97fa1"

/-- First known MEV address, lowercase. -/
def mevAddr : String := "0x4206904396d558d6fa240e0f788d30c831d4a6e7"

/-- First player address, lowercase. -/
def playerAddr : String := "0xd8da6bf26964af9d7eed9e03e53415d37aa96045"

/-- Second player address, lowercase. -/
def player2Addr : String := "0x690b9a9e9aa1c9db991c7721a92d351db4fac990"

/-- Call data invoking `makeMove(uint256,Choice)`. -/
def makeMoveInput : String :=
  "0x57a33a7c00000000000000000000000000000000000000000000000000000000000000010000000000000000000000000000000000000000000000000000000000000001"

/-- Call data invoking the privileged `_endGame(uint256)`. -/
def endGameInput : String :=
  "0x3e4372d00000000000000000000000000000000000000000000000000000000000000001"

/-- Call data invoking `createGame(GameType)`. -/
def createGameInput : String :=
  "0x25aa99cd0000000000000000000000000000000000000000000000000000000000000000"

/-- Request whose recipient differs from the protocol address (scope
mismatch), with a context that would otherwise fire the time-bandit
detector. -/
def scopeMismatchRequest : DetectionRequest :=
  { hash := "0x1",
    protocolAddress := some protoAddr,
    trace := { fromAddr := playerAddr,
               toAddr := "0x00000000000000000000000000000000000000ff",
               input := endGameInput },
    additionalData := some
      { blockchainContext := some { isReorg := some true, reorgDepth := some 5 } } }

/-- Reorg view with the given depth and `isReorg` set. -/
def reorgView (depth : Option Nat) : BlockchainContext :=
  { isReorg := some true, reorgDepth := depth }

/-- Request carrying a reorg view with the given depth. -/
def reorgRequest (depth : Option Nat) : DetectionRequest :=
  { hash := "0x1",
    protocolAddress := some protoAddr,
    trace := { fromAddr := playerAddr, toAddr := protoAddr, input := makeMoveInput },
    additionalData := some { blockchainContext := some (reorgView depth) } }

/-- Mempool view of the sandwich scenario of claim C5: attacker bracket
with higher gas price around the target, impacts of 2.5 and 2.7 percent. -/
def sandwichMempool : MempoolContext :=
  { blockTransactions := some
      [⟨"0xbuy", mevAddr, "0xpool", 35000000000, "0xabcdef01"⟩,
       ⟨"0xtarget", playerAddr, protoAddr, 30000000000, createGameInput⟩,
       ⟨"0xsell", mevAddr, "0xpool", 35000000000, "0xfedcba98"⟩],
    priceImpact := some ⟨⟨25, 10⟩, ⟨27, 10⟩⟩ }

/-- Request realising the sandwich scenario of claim C5. -/
def sandwichRequest : DetectionRequest :=
  { hash := "0xtarget",
    protocolAddress := some protoAddr,
    trace := { fromAddr := playerAddr, toAddr := protoAddr, input := createGameInput },
    additionalData := some { mempoolContext := some sandwichMempool } }

/-- Request with a make-move call whose single nested sub-call invokes the
privileged end-game selector, and no multisig view: the input on which
claim C4 and the source disagree. -/
def multisigCexRequest : DetectionRequest :=
  { hash := "0x1",
    protocolAddress := some protoAddr,
    trace := { fromAddr := playerAddr, toAddr := protoAddr, input := makeMoveInput,
               calls := some [⟨playerAddr, protoAddr, endGameInput⟩] },
    additionalData := none }

/-- Request with a make-move call, two nested sub-calls one of which
invokes the privileged end-game selector, and no multisig view. -/
def multisigTwoCallsRequest : DetectionRequest :=
  { hash := "0x1",
    protocolAddress := some protoAddr,
    trace := { fromAddr := playerAddr, toAddr := protoAddr, input := makeMoveInput,
               calls := some
                 [⟨playerAddr, protoAddr, makeMoveInput⟩,
                  ⟨playerAddr, protoAddr, endGameInput⟩] },
    additionalData := none }

/-- JIT event pattern with a high-risk provider and a profitable removal. -/
def jitEvents : List LiquidityEvent :=
  [⟨"add", mevAddr, ⟨100, 1⟩⟩,
   ⟨"playerTransaction", playerAddr, ⟨10, 1⟩⟩,
   ⟨"remove", mevAddr, ⟨1002, 10⟩⟩]

/-- Liquidity view with the JIT event pattern and the given duration. -/
def jitView (duration : Option JSNum) : LiquidityContext :=
  { recentLiquidityEvents := some jitEvents, liquidityDuration := duration }

/-- Request with a complete JIT event pattern and a defined liquidity
duration of zero seconds. -/
def jitZeroDurationRequest : DetectionRequest :=
  { hash := "0x1",
    protocolAddress := some protoAddr,
    trace := { fromAddr := playerAddr, toAddr := protoAddr, input := createGameInput },
    additionalData := some { liquidityContext := some (jitView (some ⟨0, 1⟩)) } }

/-- The same JIT event pattern with a duration of ten seconds. -/
def jitTenSecondsRequest : DetectionRequest :=
  { hash := "0x1",
    protocolAddress := some protoAddr,
    trace := { fromAddr := playerAddr, toAddr := protoAddr, input := createGameInput },
    additionalData := some { liquidityContext := some (jitView (some ⟨10, 1⟩)) } }

/-- Oracle view with two updates and no volatility summary; only the
second (last) update shows a large change by a high-risk updater. -/
def oracleLastUpdateView : OracleContext :=
  { recentOracleUpdates := some
      [⟨⟨100, 1⟩, ⟨100, 1⟩, mevAddr⟩,
       ⟨⟨100, 1⟩, ⟨200, 1⟩, mevAddr⟩] }

/-- Request carrying `oracleLastUpdateView`. -/
def oracleLastUpdateRequest : DetectionRequest :=
  { hash := "0x1",
    protocolAddress := some protoAddr,
    trace := { fromAddr := playerAddr, toAddr := protoAddr, input := makeMoveInput },
    additionalData := some { oracleContext := some oracleLastUpdateView } }

/-- Oracle view with two updates and a volatility summary showing a 12.4
percent attack volatility against a 1.2 percent baseline at confidence
0.96. -/
def oracleVolatilityView : OracleContext :=
  { recentOracleUpdates := some
      [⟨⟨105, 10⟩, ⟨92, 10⟩, mevAddr⟩,
       ⟨⟨92, 10⟩, ⟨106, 10⟩, mevAddr⟩],
    volatilityAnalysis := some ⟨⟨12, 10⟩, ⟨124, 10⟩, ⟨96, 100⟩⟩ }

/-- Request carrying `oracleVolatilityView`. -/
def oracleVolatilityRequest : DetectionRequest :=
  { hash := "0x1",
    protocolAddress := some protoAddr,
    trace := { fromAddr := playerAddr, toAddr := protoAddr, input := makeMoveInput },
    additionalData := some { oracleContext := some oracleVolatilityView } }

/-- Game state of a fresh single-round game between the two players. -/
def freshGameState : GameStateView :=
  { players := [playerAddr, player2Addr], roundsPlayed := 0,
    scores := [0, 0], gameType := GameType.oneRound }

/-- Request invoking the privileged end-game selector on a single-round
game with zero rounds played (the premature-resolution scenario). -/
def prematureRequest : DetectionRequest :=
  { hash := "0x1",
    protocolAddress := some protoAddr,
    trace := { fromAddr := playerAddr, toAddr := protoAddr, input := endGameInput },
    additionalData := some { gameState := some freshGameState } }

/-- Request invoking make-move from a sender outside the authoritative
player set (the unauthorized-actor scenario). -/
def unauthorizedRequest : DetectionRequest :=
  { hash := "0x1",
    protocolAddress := some protoAddr,
    trace := { fromAddr := mevAddr, toAddr := protoAddr, input := makeMoveInput },
    additionalData := some { gameState := some freshGameState } }

/-- Request invoking create-game with no additional context at all. -/
def createGameRequest : DetectionRequest :=
  { hash := "0x1",
    protocolAddress := some protoAddr,
    trace := { fromAddr := playerAddr, toAddr := protoAddr, input := createGameInput },
    additionalData := none }

theorem sandwich_abstains (request : DetectionRequest)
    (h : request.additionalData.bind (fun d => d.mempoolContext) = none) :
    isSandwichAttackPattern request = false := by
  simp [isSandwichAttackPattern, h]

theorem frontrunning_abstains (request : DetectionRequest)
    (h : request.additionalData.bind (fun d => d.mempoolContext) = none) :
    isGeneralizedFrontrunning request = false := by
  simp [isGeneralizedFrontrunning, h]

theorem time_bandit_abstains (request : DetectionRequest)
    (h : request.additionalData.bind (fun d => d.blockchainContext) = none) :
    isTimeBanditAttack request = false := by
  simp [isTimeBanditAttack, h]

theorem jit_abstains (request : DetectionRequest)
    (h : request.additionalData.bind (fun d => d.liquidityContext) = none) :
    isJITLiquidityAttack request = false := by
  simp [isJITLiquidityAttack, h]

theorem oracle_abstains (request : DetectionRequest)
    (h : request.additionalData.bind (fun d => d.oracleContext) = none) :
    isOracleManipulation request = false := by
  simp [isOracleManipulation, h]

theorem multisig_needs_make_move (functionSignature : String)
    (request : DetectionRequest) (h : functionSignature ≠ MAKE_MOVE) :
    isMultisigValidationBypass functionSignature request = false := by
  simp [isMultisigValidationBypass, h]

/-- C1: when the trace recipient does not case-insensitively equal the
protocol address (or no protocol address is supplied), `detect` returns a
negative verdict with no message, whatever the rest of the request holds;
no detector is consulted. -/
theorem scope_filter_dominates (request : DetectionRequest)
    (h : request.protocolAddress.map lowerStr ≠ some (lowerStr request.trace.toAddr)) :
    (detect request).detected = false ∧ (detect request).message = none := by
  unfold detect
  rw [if_pos h]
  exact ⟨rfl, rfl⟩

/-- Witness for C1 at a concrete out-of-scope request. -/
theorem scope_filter_dominates_witness :
    (detect scopeMismatchRequest).detected = false
    ∧ (detect scopeMismatchRequest).message = none :=
  scope_filter_dominates scopeMismatchRequest (by decide)

/-- C3: the time-bandit detector fires at reorg depth 3, abstains at depths
2 and 0 and at an absent depth; and over all requests it matches exactly
when the reorg view is present, `isReorg` is set and a defined depth
strictly exceeds 2 — extensionally the definedness reading of the depth
check (the truthiness conjunct of the source is redundant because every
depth above 2 is non-zero). -/
theorem time_bandit_depth_semantics :
    isTimeBanditAttack (reorgRequest (some 3)) = true
    ∧ isTimeBanditAttack (reorgRequest (some 2)) = false
    ∧ isTimeBanditAttack (reorgRequest (some 0)) = false
    ∧ isTimeBanditAttack (reorgRequest none) = false
    ∧ ∀ request : DetectionRequest, isTimeBanditAttack request = true ↔
        ∃ bc depth,
          request.additionalData.bind (fun d => d.blockchainContext) = some bc
          ∧ bc.isReorg = some true ∧ bc.reorgDepth = some depth ∧ 2 < depth := by
  refine ⟨by decide, by decide, by decide, by decide, fun request => ?_⟩
  rcases hbc : request.additionalData.bind (fun d => d.blockchainContext) with _ | bc
  · simp [isTimeBanditAttack, hbc]
  · rcases bc with ⟨ir, rd, bn, ts⟩
    rcases ir with _ | b
    · simp [isTimeBanditAttack, hbc]
    · rcases rd with _ | depth
      · simp [isTimeBanditAttack, hbc]
      · cases b
        · simp [isTimeBanditAttack, hbc]
        · simp only [isTimeBanditAttack, hbc, Option.getD_some, Bool.true_and,
            Option.some.injEq, Bool.and_eq_true, bne_iff_ne, ne_eq,
            decide_eq_true_eq]
          constructor
          · intro h
            exact ⟨⟨some true, some depth, bn, ts⟩, depth, rfl, rfl, rfl, h.2⟩
          · rintro ⟨bc', depth', heq, hir', hrd', hlt⟩
            subst heq
            have hdep : depth = depth' := by simpa using hrd'
            subst hdep
            refine ⟨?_, hlt⟩
            simp only [Bool.not_eq_true', beq_eq_false_iff_ne, ne_eq]
            omega

/-- C2: on every in-scope request invoking the privileged end-game selector
whose context carries a single-round game state with zero rounds played,
the pipeline of the second variant reports a detection whose message
contains "prematurely" (spec-modelled: the second variant is not in the
captured tree). -/
theorem premature_resolution_fires (request : DetectionRequest) (gs : GameStateView)
    (hscope : request.protocolAddress.map lowerStr = some (lowerStr request.trace.toAddr))
    (hsel : selector request.trace.input = END_GAME)
    (hgs : request.additionalData.bind (fun d => d.gameState) = some gs)
    (htype : gs.gameType = GameType.oneRound)
    (hrounds : gs.roundsPlayed = 0) :
    (detectGame request).detected = true
    ∧ ∃ s t, (detectGame request).message = some (s ++ "prematurely" ++ t) := by
  have hprem : isPrematureResolution request = true := by
    simp [isPrematureResolution, hsel, hgs, winConditionReached, htype, hrounds]
  unfold detectGame
  rw [if_neg (fun hne => hne hscope), if_pos hprem]
  exact ⟨rfl, "Attempt to end game ", " detected", rfl⟩

/-- Witness for C2 at the concrete premature-resolution scenario. -/
theorem premature_resolution_fires_witness :
    (detectGame prematureRequest).detected = true
    ∧ ∃ s t, (detectGame prematureRequest).message = some (s ++ "prematurely" ++ t) :=
  premature_resolution_fires prematureRequest freshGameState rfl rfl rfl rfl rfl

/-- C6: on every in-scope request invoking the make-move selector whose
context carries a game state listing the players, a sender outside that
set (case-insensitively) yields a detection whose message contains
"Unauthorized player"; and the unauthorized-actor detector abstains when
no game-state view is supplied (spec-modelled: the second variant is not
in the captured tree). -/
theorem unauthorized_actor_fires :
    (∀ (request : DetectionRequest) (gs : GameStateView),
      request.protocolAddress.map lowerStr = some (lowerStr request.trace.toAddr) →
      selector request.trace.input = MAKE_MOVE →
      request.additionalData.bind (fun d => d.gameState) = some gs →
      lowerStr request.trace.fromAddr ∉ gs.players.map lowerStr →
      (detectGame request).detected = true
      ∧ ∃ s t, (detectGame request).message = some (s ++ "Unauthorized player" ++ t))
    ∧ ∀ request : DetectionRequest,
        request.additionalData.bind (fun d => d.gameState) = none →
        isUnauthorizedActor request = false := by
  constructor
  · intro request gs hscope hsel hgs hout
    have hne : selector request.trace.input ≠ END_GAME := by
      rw [hsel]; decide
    have hprem : isPrematureResolution request = false := by
      simp [isPrematureResolution, hne]
    have hdirect : isDirectPrivilegedCall request = false := by
      simp [isDirectPrivilegedCall, hne]
    have hunauth : isUnauthorizedActor request = true := by
      simp [isUnauthorizedActor, hsel, hgs, hout]
    unfold detectGame
    rw [if_neg (fun hne2 => hne2 hscope), if_neg (by simp [hprem]),
      if_neg (by simp [hdirect]), if_pos hunauth]
    exact ⟨rfl, "", " attempting to make move", rfl⟩
  · intro request h
    simp [isUnauthorizedActor, h]

/-- Witness for C6 at the concrete unauthorized-player scenario and at the
context-free request. -/
theorem unauthorized_actor_fires_witness :
    ((detectGame unauthorizedRequest).detected = true
      ∧ ∃ s t, (detectGame unauthorizedRequest).message = some (s ++ "Unauthorized player" ++ t))
    ∧ isUnauthorizedActor createGameRequest = false :=
  ⟨unauthorized_actor_fires.1 unauthorizedRequest freshGameState rfl rfl rfl (by decide),
   unauthorized_actor_fires.2 createGameRequest rfl⟩

/-- C9: every verdict of `detect` either is negative with no message, or is
positive with a non-empty message drawn from the fixed per-detector
vocabulary, whose six entries are pairwise distinct (one literal per
detector). -/
theorem detect_message_invariant :
    (∀ request : DetectionRequest,
      ((detect request).detected = false ∧ (detect request).message = none)
      ∨ ((detect request).detected = true
        ∧ ∃ m, (detect request).message = some m ∧ m ≠ "" ∧ m ∈ attackMessages))
    ∧ attackMessages.Nodup := by
  refine ⟨fun request => ?_, by decide⟩
  unfold detect
  split
  · exact Or.inl ⟨rfl, rfl⟩
  split
  · exact Or.inr ⟨rfl, sandwichAttackMessage, rfl, by decide, by simp [attackMessages]⟩
  split
  · exact Or.inr ⟨rfl, timeBanditMessage, rfl, by decide, by simp [attackMessages]⟩
  split
  · exact Or.inr ⟨rfl, jitLiquidityMessage, rfl, by decide, by simp [attackMessages]⟩
  split
  · exact Or.inr ⟨rfl, multisigBypassMessage, rfl, by decide, by simp [attackMessages]⟩
  split
  · exact Or.inr ⟨rfl, oracleManipulationMessage, rfl, by decide, by simp [attackMessages]⟩
  split
  · exact Or.inr ⟨rfl, frontrunningMessage, rfl, by decide, by simp [attackMessages]⟩
  · exact Or.inl ⟨rfl, rfl⟩

/-- C10: every detector that reads an optional context view abstains when
that view is absent (the multisig detector needs no view: its fail-closed
behaviour on absent context is claim C4), and an in- or out-of-scope
create-game request carrying no additional context yields a negative
verdict; in this embedding `detect` is total by construction. -/
theorem detectors_abstain_without_context :
    (∀ request : DetectionRequest,
      request.additionalData.bind (fun d => d.mempoolContext) = none →
      isSandwichAttackPattern request = false ∧ isGeneralizedFrontrunning request = false)
    ∧ (∀ request : DetectionRequest,
        request.additionalData.bind (fun d => d.blockchainContext) = none →
        isTimeBanditAttack request = false)
    ∧ (∀ request : DetectionRequest,
        request.additionalData.bind (fun d => d.liquidityContext) = none →
        isJITLiquidityAttack request = false)
    ∧ (∀ request : DetectionRequest,
        request.additionalData.bind (fun d => d.oracleContext) = none →
        isOracleManipulation request = false)
    ∧ ∀ request : DetectionRequest,
        request.additionalData = none →
        selector request.trace.input = CREATE_GAME →
        (detect request).detected = false := by
  refine ⟨fun request h => ⟨sandwich_abstains request h, frontrunning_abstains request h⟩,
    fun request h => time_bandit_abstains request h,
    fun request h => jit_abstains request h,
    fun request h => oracle_abstains request h,
    fun request h hsel => ?_⟩
  have hbind : ∀ {α : Type} (f : AdditionalData → Option α),
      request.additionalData.bind f = none := by
    intro α f; rw [h]; rfl
  have h1 := sandwich_abstains request (hbind _)
  have h2 := time_bandit_abstains request (hbind _)
  have h3 := jit_abstains request (hbind _)
  have h4 := oracle_abstains request (hbind _)
  have h5 := multisig_needs_make_move (selector request.trace.input) request
    (by rw [hsel]; decide)
  have h6 := frontrunning_abstains request (hbind _)
  unfold detect
  split
  · rfl
  · simp [h1, h2, h3, h4, h5, h6, createResponse]

/-- Witness for C10 at the concrete context-free create-game request. -/
theorem detectors_abstain_without_context_witness :
    (isSandwichAttackPattern createGameRequest = false
      ∧ isGeneralizedFrontrunning createGameRequest = false)
    ∧ isTimeBanditAttack createGameRequest = false
    ∧ isJITLiquidityAttack createGameRequest = false
    ∧ isOracleManipulation createGameRequest = false
    ∧ (detect createGameRequest).detected = false :=
  ⟨detectors_abstain_without_context.1 createGameRequest rfl,
   detectors_abstain_without_context.2.1 createGameRequest rfl,
   detectors_abstain_without_context.2.2.1 createGameRequest rfl,
   detectors_abstain_without_context.2.2.2.1 createGameRequest rfl,
   detectors_abstain_without_context.2.2.2.2 createGameRequest rfl rfl⟩

/-- C7 (failing input): a request with a complete JIT event pattern — a
high-risk provider and a removal exceeding the addition — and a defined
liquidity duration of zero seconds satisfies every condition of the claim,
yet the detector reports no match, because the source tests the duration
for JavaScript truthiness (zero is falsy) instead of definedness; the same
request with a ten-second duration does match. -/
theorem jit_zero_duration_code_bug :
    jitClaim jitZeroDurationRequest
    ∧ isJITLiquidityAttack jitZeroDurationRequest = false
    ∧ isJITLiquidityAttack jitTenSecondsRequest = true := by
  refine ⟨⟨jitView (some ⟨0, 1⟩), jitEvents, rfl, rfl, by decide, by decide, by decide,
    ⟨⟨0, 1⟩, rfl, by decide⟩, Or.inl (by decide)⟩, by decide, by decide⟩

/-- C4 (counterexample): a make-move request whose only nested sub-call
invokes the privileged end-game selector, with no multisig view, satisfies
every condition of the claim, yet the detector reports no match — the
source additionally requires at least two nested sub-calls. -/
theorem multisig_bypass_counterexample :
    multisigBypassClaim multisigCexRequest
    ∧ isMultisigValidationBypass (selector multisigCexRequest.trace.input)
        multisigCexRequest = false := by
  refine ⟨⟨by decide, ⟨⟨playerAddr, protoAddr, endGameInput⟩, by decide, by decide⟩,
    Or.inr rfl⟩, by decide⟩

/-- C4 (amended): the multisig-bypass detector matches exactly when the
conditions of the claim hold and, additionally, the trace lists at least
two nested sub-calls. -/
theorem multisig_bypass_amended (request : DetectionRequest) :
    isMultisigValidationBypass (selector request.trace.input) request = true
    ↔ multisigBypassClaim request ∧ 2 ≤ (request.trace.calls.getD []).length := by
  unfold isMultisigValidationBypass multisigBypassClaim
  by_cases hsig : selector request.trace.input = MAKE_MOVE
  · rw [if_neg (fun hne => hne hsig)]
    by_cases hlen : (request.trace.calls.getD []).length < 2
    · rw [if_pos hlen]
      constructor
      · intro h; exact absurd h (by simp)
      · rintro ⟨-, hge⟩; exact absurd hge (by omega)
    · rw [if_neg hlen]
      by_cases hsus : 0 < ((request.trace.calls.getD []).filter
          (fun call => startsWithStr END_GAME call.input)).length
      · rw [if_pos hsus]
        have hex : ∃ call ∈ request.trace.calls.getD [],
            startsWithStr END_GAME call.input = true := by
          obtain ⟨c, hc⟩ := List.exists_mem_of_ne_nil _ (List.length_pos.mp hsus)
          exact ⟨c, (List.mem_filter.mp hc).1, (List.mem_filter.mp hc).2⟩
        rcases hmi : request.additionalData.bind (fun d => d.multisigInfo) with _ | mi
        · simp only [hmi]
          constructor
          · intro _
            exact ⟨⟨hsig, hex, Or.inr (by trivial)⟩, by omega⟩
          · intro _
            trivial
        · simp only [hmi, Option.some.injEq]
          constructor
          · intro h
            have hlt : mi.presentPlayers < mi.requiredPlayers := by
              simpa [decide_eq_true_eq] using h
            exact ⟨⟨hsig, hex, Or.inl ⟨mi, rfl, hlt⟩⟩, by omega⟩
          · rintro ⟨⟨-, -, hor⟩, -⟩
            rcases hor with ⟨mi', hmieq, hlt⟩ | hnone
            · subst hmieq
              exact decide_eq_true hlt
            · exact absurd hnone (by simp)
      · rw [if_neg hsus]
        constructor
        · intro h; exact absurd h (by simp)
        · rintro ⟨⟨-, hex, -⟩, -⟩
          obtain ⟨c, hc, hcp⟩ := hex
          exact absurd
            (List.length_pos.mpr (List.ne_nil_of_mem (List.mem_filter.mpr ⟨hc, hcp⟩))) hsus
  · rw [if_pos hsig]
    constructor
    · intro h; exact absurd h (by simp)
    · rintro ⟨⟨heq, -, -⟩, -⟩; exact absurd heq hsig

/-- Witness for the amended C4: with two nested sub-calls, an end-game
sub-call and no multisig view, the detector matches. -/
theorem multisig_bypass_amended_witness :
    isMultisigValidationBypass (selector multisigTwoCallsRequest.trace.input)
      multisigTwoCallsRequest = true :=
  (multisig_bypass_amended multisigTwoCallsRequest).mpr
    ⟨⟨by decide, ⟨⟨playerAddr, protoAddr, endGameInput⟩, by decide, by decide⟩,
      Or.inr rfl⟩, by decide⟩

/-- C8 (counterexample): an oracle view with two updates and no volatility
summary, where only the second — last — update shows a change above ten
percent by a high-risk updater, satisfies the claim, yet the detector
reports no match: the source loop runs `i` from `0` to `length - 2` over
the per-update change, so the last update is never examined. -/
theorem oracle_last_update_counterexample :
    oracleClaim oracleLastUpdateRequest
    ∧ isOracleManipulation oracleLastUpdateRequest = false := by
  refine ⟨⟨oracleLastUpdateView,
    [⟨⟨100, 1⟩, ⟨100, 1⟩, mevAddr⟩, ⟨⟨100, 1⟩, ⟨200, 1⟩, mevAddr⟩], rfl, rfl, by decide,
    Or.inr ⟨rfl, ⟨⟨100, 1⟩, ⟨200, 1⟩, mevAddr⟩, by decide, by decide, by decide⟩⟩, by decide⟩

/-- C8 (amended): with an oracle view of at least two updates, the detector
matches exactly when either a supplied volatility summary passes the
three-times-normal and confidence test, or — absent a summary — some
update at an index strictly below `length - 1` (the last update is never
examined) shows a change above ten percent by a high-risk updater. -/
theorem oracle_detector_amended (request : DetectionRequest) (oc : OracleContext)
    (updates : List OracleUpdate)
    (hoc : request.additionalData.bind (fun d => d.oracleContext) = some oc)
    (hupd : oc.recentOracleUpdates = some updates)
    (hlen : 2 ≤ updates.length) :
    isOracleManipulation request = true ↔
      ((∃ va, oc.volatilityAnalysis = some va
          ∧ JSNum.blt (va.normalVolatility.mul (JSNum.ofNat 3)) va.attackVolatility = true
          ∧ JSNum.blt ⟨8, 10⟩ va.confidenceScore = true)
       ∨ (oc.volatilityAnalysis = none
          ∧ ∃ i, i < updates.length - 1
              ∧ JSNum.blt (JSNum.ofNat 10)
                  (percentChange (updates.getD i defaultOracleUpdate)) = true
              ∧ lowerStr (updates.getD i defaultOracleUpdate).updater
                  ∈ KNOWN_MEV_ADDRESSES)) := by
  unfold isOracleManipulation
  simp only [hoc, hupd]
  rw [if_neg (by omega)]
  rcases hva : oc.volatilityAnalysis with _ | va
  · simp only [hva, List.any_eq_true, List.mem_range]
    constructor
    · rintro ⟨i, hi, hcheck⟩
      have hparts := (Bool.and_eq_true _ _).mp hcheck
      refine Or.inr ⟨by trivial, i, hi, hparts.1, ?_⟩
      simpa using hparts.2
    · rintro (⟨va', hva', -⟩ | ⟨-, i, hi, hch, hmem⟩)
      · exact absurd hva' (by simp)
      · refine ⟨i, hi, (Bool.and_eq_true _ _).mpr ⟨hch, ?_⟩⟩
        simpa using hmem
  · simp only [hva, List.any_eq_true, List.mem_range, Option.some.injEq]
    constructor
    · rintro ⟨i, hi, hcheck⟩
      have hparts := (Bool.and_eq_true _ _).mp hcheck
      exact Or.inl ⟨va, rfl, hparts.1, hparts.2⟩
    · rintro (⟨va', hva'eq, h1, h2⟩ | ⟨hnone, -⟩)
      · subst hva'eq
        exact ⟨0, by omega, (Bool.and_eq_true _ _).mpr ⟨h1, h2⟩⟩
      · exact absurd hnone (by simp)

/-- Witness for the amended C8: the volatility-summary test fires on a
12.4 percent attack volatility against a 1.2 percent baseline at
confidence 0.96. -/
theorem oracle_detector_amended_witness :
    isOracleManipulation oracleVolatilityRequest = true :=
  (oracle_detector_amended oracleVolatilityRequest oracleVolatilityView
      [⟨⟨105, 10⟩, ⟨92, 10⟩, mevAddr⟩, ⟨⟨92, 10⟩, ⟨106, 10⟩, mevAddr⟩]
      rfl rfl (by decide)).mpr
    (Or.inl ⟨⟨⟨12, 10⟩, ⟨124, 10⟩, ⟨96, 100⟩⟩, rfl, by decide, by decide⟩)

/-- C5: the sandwich detector matches exactly under the structural and
price-impact conditions of the claim (the located-by-hash position being
the first index at which the hash occurs), and the concrete scenario with
impacts of 2.5 and 2.7 percent yields a positive verdict whose message
contains "Sandwich attack". -/
theorem sandwich_detector_exact :
    (∀ request : DetectionRequest,
        isSandwichAttackPattern request = true ↔ sandwichClaim request)
    ∧ (detect sandwichRequest).detected = true
    ∧ ∃ s t, (detect sandwichRequest).message = some (s ++ "Sandwich attack" ++ t) := by
  refine ⟨fun request => ?_, by decide, "",
    " pattern detected: Transaction is part of a sandwich attack that may extract value from players",
    by decide⟩
  rcases hmc : request.additionalData.bind (fun d => d.mempoolContext) with _ | mc
  · simp [isSandwichAttackPattern, sandwichClaim, hmc]
  · rcases hbt : mc.blockTransactions with _ | txs
    · simp [isSandwichAttackPattern, sandwichClaim, hmc, hbt]
    · simp only [isSandwichAttackPattern, hmc, hbt]
      constructor
      · intro h
        by_cases h3 : txs.length < 3
        · rw [if_pos h3] at h
          exact absurd h (by simp)
        rw [if_neg h3] at h
        by_cases hpos : txs.findIdx (fun tx => tx.hash == request.hash) = 0
            ∨ txs.length - 1 ≤ txs.findIdx (fun tx => tx.hash == request.hash)
        · rw [if_pos hpos] at h
          exact absurd h (by simp)
        rw [if_neg hpos] at h
        push_neg at hpos
        obtain ⟨hne0, hltl⟩ := hpos
        split at h
        next hcond =>
          simp only [Bool.and_eq_true, beq_iff_eq, decide_eq_true_eq] at hcond
          rcases hcond with ⟨⟨⟨hEq, hMem⟩, hg1⟩, hg2⟩
          refine ⟨mc, txs, hmc, hbt, by omega, Nat.pos_of_ne_zero hne0, hltl, hEq,
            by simpa using hMem, hg1, hg2, ?_⟩
          intro pi hpi
          rw [hpi] at h
          exact h
        next hcond =>
          exact absurd h (by simp)
      · rintro ⟨mc', txs', h1, h2, hge3, hpos0, hposl, hEq, hMemP, hg1, hg2, hall⟩
        rw [hmc] at h1
        obtain rfl := Option.some.inj h1
        rw [hbt] at h2
        obtain rfl := Option.some.inj h2
        rw [if_neg (by omega : ¬ txs.length < 3),
          if_neg (by omega : ¬ (txs.findIdx (fun tx => tx.hash == request.hash) = 0
            ∨ txs.length - 1 ≤ txs.findIdx (fun tx => tx.hash == request.hash)))]
        split
        next =>
          rcases hpi : mc.priceImpact with _ | pi
          · rfl
          · exact hall pi hpi
        next hcond =>
          refine absurd ?_ hcond
          simp only [Bool.and_eq_true, beq_iff_eq, decide_eq_true_eq]
          exact ⟨⟨⟨hEq, by simpa using hMemP⟩, hg1⟩, hg2⟩
